import Mathlib

/-!
# Verification of the Fireworks code-completion provider

Shallow embedding of the Fireworks autocomplete provider
(`vscode/src/completions/providers/fireworks.ts`): prompt construction under a
character budget, model resolution, request-parameter presets and overrides,
and the all-or-nothing completion aggregation.  Strings are modelled by Lean
`String` (characters in place of UTF-16 code units; all relevant literals are
ASCII), numbers by `Nat`/`ℚ`, JS `undefined`/`null` by `Option`.
-/

namespace Fireworks

/-- Modelled from the spec: `tokensToChars` from the shared prompt constants
(not under `src/`), "a fixed characters-per-token ratio".  The ratio is the
constant `CHARS_PER_TOKEN`. -/
def CHARS_PER_TOKEN : Nat := 4

/-- Modelled from the spec: token budget converted to a character budget at the
fixed ratio. -/
def tokensToChars (tokens : Nat) : Nat := tokens * CHARS_PER_TOKEN

/-- Source constant `MAX_RESPONSE_TOKENS`. -/
def MAX_RESPONSE_TOKENS : Nat := 256

/-- The language profile returned by the Language Profile Resolver: exposes the
line-comment marker (`commentStart`). -/
structure LanguageConfig where
  commentStart : String
deriving Repr, DecidableEq

/-- Source `DocumentContext`: the prefix/suffix window around the cursor.  The
field `prefix` is a reserved word in Lean, kept here as `prefixText`. -/
structure DocumentContext where
  prefixText : String
  suffix : String
deriving Repr, DecidableEq

/-- Source `ContextSnippet`: either a symbol snippet (`symbol ≠ none`) or a file
snippet.  In the source this is a union type; both variants carry `content`,
and the file variant carries `fileName`. -/
structure ContextSnippet where
  symbol : Option String
  fileName : String
  content : String
deriving Repr, DecidableEq

/-- Source `ProviderOptions`: per-completion-request configuration. -/
structure ProviderOptions where
  fileName : String
  languageId : String
  docContext : DocumentContext
  n : Nat
  multiline : Bool
  dynamicMultilineCompletions : Bool
  hotStreak : Bool
deriving Repr, DecidableEq

/-- Source `AutocompleteTimeouts` (configuration surface): optional per-mode
timeout overrides (JS `number | undefined` as `Option Nat`). -/
structure AutocompleteTimeouts where
  multiline : Option Nat
  singleline : Option Nat
deriving Repr, DecidableEq

/-- A backend message (speaker/text pair). -/
structure Message where
  speaker : String
  text : String
deriving Repr, DecidableEq

/-- Source `CodeCompletionsParams`: the per-call backend request.  `model` is
`Option String` because a JS map lookup can yield `undefined`. -/
structure CodeCompletionsParams where
  timeoutMs : Nat
  maxTokensToSample : Nat
  stopSequences : Option (List String)
  messages : List Message
  temperature : ℚ
  topK : Nat
  model : Option String
deriving Repr, DecidableEq

/-- External collaborators of the provider that live outside `src/`:
the Language Profile Resolver (`getLanguageConfig`, modelled from the spec as
a pure lookup with no failure mode), `vscode.workspace.asRelativePath`, the
head/tail split `getHeadAndTail` used by the instruction-tuned template
(modelled from the spec: "a head/tail split of the prefix"), and the
opening/closing code markers of that template. -/
structure ExternalEnv where
  getLanguageConfig : String → Option LanguageConfig
  asRelativePath : String → String
  headRaw : String → String
  tailTrimmed : String → String
  openingCodeTag : String
  closingCodeTag : String

/-- Source `getSuffixAfterFirstNewline`: `indexOf('\n')`, `-1` maps to
the empty string, otherwise `slice` from that index. -/
def getSuffixAfterFirstNewline (suffix : String) : String :=
  match suffix.toList.findIdx? (· = '\n') with
  | none => ""
  | some i => String.mk (suffix.toList.drop i)

/-- Source predicate `isStarCoderFamily`: `model.startsWith('starcoder')`
(character-level prefix test, structurally recursive so that closed prompts
evaluate inside the kernel). -/
def isStarCoderFamily (model : String) : Bool :=
  "starcoder".toList.isPrefixOf model.toList

/-- Source predicate `isLlamaCode`: `model.startsWith('llama-code')`. -/
def isLlamaCode (model : String) : Bool :=
  "llama-code".toList.isPrefixOf model.toList

/-- Source `MODEL_MAP`: user-facing model id to backend model id. -/
def MODEL_MAP : List (String × String) :=
  [("starcoder-16b", "fireworks/starcoder-16b"),
   ("starcoder-7b", "fireworks/starcoder-7b"),
   ("starcoder-3b", "fireworks/accounts/fireworks/models/starcoder-3b-w8a16"),
   ("starcoder-1b", "fireworks/accounts/fireworks/models/starcoder-1b-w8a16"),
   ("llama-code-7b", "fireworks/accounts/fireworks/models/llama-v2-7b-code"),
   ("llama-code-13b", "fireworks/accounts/fireworks/models/llama-v2-13b-code"),
   ("llama-code-13b-instruct", "fireworks/accounts/fireworks/models/llama-v2-13b-code-instruct"),
   ("mistral-7b-instruct-4k", "fireworks/accounts/fireworks/models/mistral-7b-instruct-4k")]

/-- Source `MODEL_MAP[key]` as in JS: `none` models `undefined`. -/
def modelMapLookup (key : String) : Option String :=
  (MODEL_MAP.find? (fun p => p.1 == key)).map (·.2)

/-- Source `getMaxContextTokens`. -/
def getMaxContextTokens (model : String) : Nat :=
  match model with
  | "starcoder-hybrid" | "starcoder-16b" | "starcoder-7b"
  | "starcoder-3b" | "starcoder-1b" => 2048
  | "llama-code-7b" | "llama-code-13b" | "llama-code-13b-instruct" => 2048
  | "mistral-7b-instruct-4k" => 2048
  | _ => 1200

/-- The `Pick<CodeCompletionsParams, 'maxTokensToSample' | 'stopSequences' |
'timeoutMs'>` shape of the three request-parameter presets. -/
structure CompletionArgs where
  timeoutMs : Nat
  maxTokensToSample : Nat
  stopSequences : Option (List String)
deriving Repr, DecidableEq

/-- Source `SINGLE_LINE_COMPLETION_ARGS`. -/
def SINGLE_LINE_COMPLETION_ARGS : CompletionArgs :=
  { timeoutMs := 5000, maxTokensToSample := 30, stopSequences := some ["\n"] }

/-- Source `MULTI_LINE_COMPLETION_ARGS`. -/
def MULTI_LINE_COMPLETION_ARGS : CompletionArgs :=
  { timeoutMs := 15000, maxTokensToSample := MAX_RESPONSE_TOKENS,
    stopSequences := some ["\n\n", "\n\r\n"] }

/-- Source `DYNAMIC_MULTLILINE_COMPLETIONS_ARGS` (source spelling kept);
`stopSequences: undefined` is an explicitly present property, so `Object.assign`
does overwrite the previous stop sequences with it. -/
def DYNAMIC_MULTLILINE_COMPLETIONS_ARGS : CompletionArgs :=
  { timeoutMs := 15000, maxTokensToSample := MAX_RESPONSE_TOKENS, stopSequences := none }

/-- The `FireworksProvider` instance state: the `ProviderOptions` held by the
`Provider` base class plus the fields set in the constructor. -/
structure FireworksProvider where
  options : ProviderOptions
  model : String
  promptChars : Nat
  timeouts : AutocompleteTimeouts

/-- The `FireworksProvider` constructor: `promptChars =
tokensToChars(maxContextTokens - MAX_RESPONSE_TOKENS)`. -/
def mkFireworksProvider (options : ProviderOptions) (model : String)
    (maxContextTokens : Nat) (timeouts : AutocompleteTimeouts) : FireworksProvider :=
  { options := options, model := model,
    promptChars := tokensToChars (maxContextTokens - MAX_RESPONSE_TOKENS),
    timeouts := timeouts }

/-- JS `string.split('\n')` at the character level: splits a character list
on newline characters, keeping empty segments (structural recursion, so that
closed prompts evaluate inside the kernel). -/
def splitLinesChars : List Char → List (List Char)
  | [] => [[]]
  | c :: rest =>
      match splitLinesChars rest with
      | [] => [[]]
      | line :: ls => if c = '\n' then [] :: line :: ls else (c :: line) :: ls

/-- JS `string.split('\n')` on strings: `''.split('\n')` is `['']`. -/
def splitNewlines (s : String) : List String :=
  (splitLinesChars s.toList).map String.mk

/-- JS `array.join(sep)` on an array of strings (structural recursion):
`[].join(sep)` is `''`. -/
def joinSep (sep : String) : List String → String
  | [] => ""
  | [x] => x
  | x :: y :: xs => x ++ sep ++ joinSep sep (y :: xs)

/-- The intro block pushed for one snippet in `createPrompt`: symbol+doc
phrasing when the snippet has a non-empty `symbol`, file+content phrasing
otherwise. -/
def snippetIntroText (snippet : ContextSnippet) : String :=
  match snippet.symbol with
  | some sym =>
      if sym = "" then
        "Here is a reference snippet of code from " ++ snippet.fileName ++ ":\n\n"
          ++ snippet.content
      else
        "Additional documentation for `" ++ sym ++ "`:\n\n" ++ snippet.content
  | none =>
      "Here is a reference snippet of code from " ++ snippet.fileName ++ ":\n\n"
        ++ snippet.content

/-- The `introString` computation in `createPrompt`:
`intro.join('\n\n').split('\n').map(line => languageConfig ?
languageConfig.commentStart + line : '// ').join('\n') + '\n'`.
Note the source's `'// '` branch discards `line`. -/
def renderIntroString (languageConfig : Option LanguageConfig) (intro : List String) : String :=
  joinSep "\n"
    ((splitNewlines (joinSep "\n\n" intro)).map (fun line =>
      match languageConfig with
      | some cfg => cfg.commentStart ++ line
      | none => "// ")) ++ "\n"

/-- Source `createInfillingPrompt`.  The instruction-tuned branch uses
the spec-modelled external head/tail split and code tags from `env`. -/
def createInfillingPrompt (env : ExternalEnv) (model : String) (options : ProviderOptions)
    (filename intro pfx sfx : String) : String :=
  if isStarCoderFamily model then
    "<filename>" ++ filename ++ "<fim_prefix>" ++ intro ++ pfx
      ++ "<fim_suffix>" ++ sfx ++ "<fim_middle>"
  else if isLlamaCode model then
    "<PRE> " ++ intro ++ pfx ++ " <SUF>" ++ sfx ++ " <MID>"
  else if model = "mistral-7b-instruct-4k" then
    let relativeFilePath := env.asRelativePath options.fileName
    let tailTrimmed := env.tailTrimmed options.docContext.prefixText
    let infillSuffix := options.docContext.suffix
    let infillBlock := if tailTrimmed.endsWith "\x7b\n" then tailTrimmed.trimRight else tailTrimmed
    let infillPrefix := env.headRaw options.docContext.prefixText
    "<s>[INST] Below is the code from file path " ++ relativeFilePath
      ++ ". Review the code outside the XML tags to detect the functionality, formats, style, patterns, and logics in use. Then, use what you detect and reuse methods/libraries to complete and enclose completed code only inside XML tags precisely without duplicating existing implementations. Here is the code:\n```\n"
      ++ intro ++ infillPrefix ++ env.openingCodeTag ++ env.closingCodeTag ++ infillSuffix
      ++ "\n```[/INST]\n " ++ env.openingCodeTag ++ infillBlock
  else
    intro ++ pfx

/-- The candidate prompt built in one iteration of the `createPrompt` loop from
the accumulated `intro` lines. -/
def promptCandidate (env : ExternalEnv) (model : String) (options : ProviderOptions)
    (intro : List String) : String :=
  createInfillingPrompt env model options
    (env.asRelativePath options.fileName)
    (renderIntroString (env.getLanguageConfig options.languageId) intro)
    options.docContext.prefixText
    (getSuffixAfterFirstNewline options.docContext.suffix)

/-- The `for (let snippetsToInclude = 0; ...)` loop of `createPrompt`: test the
candidate for the current `intro`; on overflow return the previously accepted
prompt, otherwise accept it and add the next snippet's block. -/
def createPromptLoop (env : ExternalEnv) (model : String) (options : ProviderOptions)
    (promptChars : Nat) : List String → String → List ContextSnippet → String
  | intro, prompt, [] =>
      let nextPrompt := promptCandidate env model options intro
      if promptChars ≤ nextPrompt.length then prompt else nextPrompt
  | intro, prompt, snippet :: rest =>
      let nextPrompt := promptCandidate env model options intro
      if promptChars ≤ nextPrompt.length then prompt
      else createPromptLoop env model options promptChars
        (intro ++ [snippetIntroText snippet]) nextPrompt rest

/-- Source `createPrompt`: the intro starts with a `Path:` line except
for StarCoder-family models, and the loop greedily packs snippets under the
`promptChars` budget. -/
def createPrompt (env : ExternalEnv) (p : FireworksProvider)
    (snippets : List ContextSnippet) : String :=
  let intro : List String :=
    if isStarCoderFamily p.model then [] else ["Path: " ++ p.options.fileName]
  createPromptLoop env p.model p.options p.promptChars intro "" snippets

/-- Extended-generation mode from `generateCompletions`:
`multiline || dynamicMultilineCompletions || hotStreak`. -/
def useExtendedGeneration (options : ProviderOptions) : Bool :=
  options.multiline || options.dynamicMultilineCompletions || options.hotStreak

/-- The effective backend model resolved in `generateCompletions`:
`starcoder-hybrid` maps through `MODEL_MAP` at the 16b key when `multiline`
and the 7b key otherwise; other models map through `MODEL_MAP` directly. -/
def resolveRequestModel (model : String) (multiline : Bool) : Option String :=
  if model = "starcoder-hybrid" then
    modelMapLookup (if multiline then "starcoder-16b" else "starcoder-7b")
  else
    modelMapLookup model

/-- The `requestParams` value of `generateCompletions` after the preset spread
and the two timeout-override `if`s (lines 240-256).  A JS truthiness test
guards each override, so an override of `0` or `undefined` is not applied. -/
def buildRequestParams (timeouts : AutocompleteTimeouts) (useExtendedGeneration : Bool)
    (prompt : String) (model : Option String) : CodeCompletionsParams :=
  let args := if useExtendedGeneration then MULTI_LINE_COMPLETION_ARGS
              else SINGLE_LINE_COMPLETION_ARGS
  let params : CodeCompletionsParams :=
    { timeoutMs := args.timeoutMs
      maxTokensToSample := args.maxTokensToSample
      stopSequences := args.stopSequences
      messages := [{ speaker := "human", text := prompt }]
      temperature := 0.2
      topK := 0
      model := model }
  let params :=
    if timeouts.multiline.getD 0 ≠ 0 ∧ useExtendedGeneration then
      { params with timeoutMs := timeouts.multiline.getD 0 }
    else params
  let params :=
    if timeouts.singleline.getD 0 ≠ 0 ∧ ¬useExtendedGeneration then
      { params with timeoutMs := timeouts.singleline.getD 0 }
    else params
  params

/-- What `generateCompletions` does after building `requestParams`: either the
zero-timeout short circuit (`onCompletionReady([])`, no fetch), or a dispatch
of `n` fetches with the final parameters (after the dynamic-multiline
`Object.assign` override) through either the standard or the dynamic
fetch-and-process implementation. -/
inductive GenerateOutcome where
  | shortCircuit
  | dispatch (requestParams : CodeCompletionsParams) (useDynamicImpl : Bool) (fetchCount : Nat)
deriving Repr, DecidableEq

/-- The control flow of `generateCompletions` up to the dispatch of the `n`
fetch operations, as a function of the provider state and snippets. -/
def generateCompletionsOutcome (env : ExternalEnv) (p : FireworksProvider)
    (snippets : List ContextSnippet) : GenerateOutcome :=
  let prompt := createPrompt env p snippets
  let model := resolveRequestModel p.model p.options.multiline
  let requestParams :=
    buildRequestParams p.timeouts (useExtendedGeneration p.options) prompt model
  if requestParams.timeoutMs = 0 then
    GenerateOutcome.shortCircuit
  else
    let requestParams :=
      if p.options.dynamicMultilineCompletions then
        { requestParams with
            timeoutMs := DYNAMIC_MULTLILINE_COMPLETIONS_ARGS.timeoutMs
            maxTokensToSample := DYNAMIC_MULTLILINE_COMPLETIONS_ARGS.maxTokensToSample
            stopSequences := DYNAMIC_MULTLILINE_COMPLETIONS_ARGS.stopSequences }
      else requestParams
    GenerateOutcome.dispatch requestParams p.options.dynamicMultilineCompletions p.options.n

/-- The final parameter record dispatched by `generateCompletions` (after the
dynamic-multiline `Object.assign` override). -/
def finalRequestParams (env : ExternalEnv) (p : FireworksProvider)
    (snippets : List ContextSnippet) : CodeCompletionsParams :=
  let requestParams :=
    buildRequestParams p.timeouts (useExtendedGeneration p.options)
      (createPrompt env p snippets) (resolveRequestModel p.model p.options.multiline)
  if p.options.dynamicMultilineCompletions then
    { requestParams with
        timeoutMs := DYNAMIC_MULTLILINE_COMPLETIONS_ARGS.timeoutMs
        maxTokensToSample := DYNAMIC_MULTLILINE_COMPLETIONS_ARGS.maxTokensToSample
        stopSequences := DYNAMIC_MULTLILINE_COMPLETIONS_ARGS.stopSequences }
  else requestParams

/-- Observation: did the outcome dispatch fetches (rather than short-circuit)? -/
def GenerateOutcome.isDispatch : GenerateOutcome → Bool
  | GenerateOutcome.shortCircuit => false
  | GenerateOutcome.dispatch _ _ _ => true

/-- Observation: the `timeoutMs` of the dispatched request, if any. -/
def GenerateOutcome.timeoutMs? : GenerateOutcome → Option Nat
  | GenerateOutcome.shortCircuit => none
  | GenerateOutcome.dispatch params _ _ => some params.timeoutMs

/-- Observation: the `maxTokensToSample` of the dispatched request, if any. -/
def GenerateOutcome.maxTokens? : GenerateOutcome → Option Nat
  | GenerateOutcome.shortCircuit => none
  | GenerateOutcome.dispatch params _ _ => some params.maxTokensToSample

/-- Observation: the `stopSequences` of the dispatched request, if any. -/
def GenerateOutcome.stops? : GenerateOutcome → Option (Option (List String))
  | GenerateOutcome.shortCircuit => none
  | GenerateOutcome.dispatch params _ _ => some params.stopSequences

/-- Observation: the backend `model` of the dispatched request, if any. -/
def GenerateOutcome.modelId? : GenerateOutcome → Option (Option String)
  | GenerateOutcome.shortCircuit => none
  | GenerateOutcome.dispatch params _ _ => some params.model

/-- Observation: the `temperature` of the dispatched request, if any. -/
def GenerateOutcome.temperature? : GenerateOutcome → Option ℚ
  | GenerateOutcome.shortCircuit => none
  | GenerateOutcome.dispatch params _ _ => some params.temperature

/-- Observation: the `topK` of the dispatched request, if any. -/
def GenerateOutcome.topK? : GenerateOutcome → Option Nat
  | GenerateOutcome.shortCircuit => none
  | GenerateOutcome.dispatch params _ _ => some params.topK

/-- The shared aggregator `onCompletionReadyImpl`: each settling per-sample
completion is pushed onto `completions`, and `onCompletionReady` fires exactly
when the accumulated length equals `n`.  The first component is the final
array, the second the list of snapshots passed to `onCompletionReady`. -/
def onCompletionReadyLoop {α : Type} (n : Nat) (acc : List α) (emitted : List (List α)) :
    List α → List α × List (List α)
  | [] => (acc, emitted)
  | c :: rest =>
      let acc' := acc ++ [c]
      let emitted' := if acc'.length = n then emitted ++ [acc'] else emitted
      onCompletionReadyLoop n acc' emitted' rest

/-- The `onCompletionReady` invocations produced by the aggregator when the
per-sample callbacks deliver `incoming` (in settlement order). -/
def onCompletionReadyEmissions {α : Type} (n : Nat) (incoming : List α) : List (List α) :=
  (onCompletionReadyLoop n [] [] incoming).2

/-- All invocations of the caller's `onCompletionReady` during one
`generateCompletions` call: the short-circuit path invokes it once with `[]`;
the dispatch path routes the settling samples through the aggregator. -/
def completionCallbackInvocations {α : Type} (env : ExternalEnv) (p : FireworksProvider)
    (snippets : List ContextSnippet) (incoming : List α) : List (List α) :=
  match generateCompletionsOutcome env p snippets with
  | GenerateOutcome.shortCircuit => [[]]
  | GenerateOutcome.dispatch _ _ _ => onCompletionReadyEmissions p.options.n incoming

/-- Modelled from the spec: `standardContextSizeHints` (from `provider.ts`,
not under `src/`) is "a context-size-hint record derived from the token
budget"; modelled as the budget itself. -/
def standardContextSizeHints (maxContextTokens : Nat) : Nat := maxContextTokens

/-- The data carried by the `ProviderConfig` returned by
`createProviderConfig` (the `create` closure is `providerConfigCreate`). -/
structure ProviderConfig where
  maxContextTokens : Nat
  contextSizeHints : Nat
  identifier : String
  model : String
deriving Repr, DecidableEq

/-- Source `createProviderConfig`: `null`/`""` fall back to
`starcoder-hybrid`, known models resolve to themselves, anything else throws
`Unknown model: \x60{model}\x60`. -/
def createProviderConfig (model : Option String) : Except String ProviderConfig :=
  let resolvedModel : Option String :=
    match model with
    | none => some "starcoder-hybrid"
    | some m =>
        if m = "" then some "starcoder-hybrid"
        else if m = "starcoder-hybrid" then some "starcoder-hybrid"
        else if MODEL_MAP.any (fun p => p.1 == m) then some m
        else none
  match resolvedModel with
  | none =>
      Except.error ("Unknown model: `" ++ (match model with
        | none => "null"
        | some m => m) ++ "`")
  | some m =>
      Except.ok
        { maxContextTokens := getMaxContextTokens m
          contextSizeHints := standardContextSizeHints (getMaxContextTokens m)
          identifier := "fireworks"
          model := m }

/-- The `create(options)` closure of the returned `ProviderConfig`. -/
def providerConfigCreate (cfg : ProviderConfig) (timeouts : AutocompleteTimeouts)
    (options : ProviderOptions) : FireworksProvider :=
  mkFireworksProvider options cfg.model cfg.maxContextTokens timeouts

/-- Spec-side description of the prompt-packing loop, first half: the sequence
of candidate prompts the loop examines, one per prefix of the snippet list
(the zero-snippet candidate first). -/
def promptSpecCandidates (env : ExternalEnv) (model : String) (options : ProviderOptions)
    (intro : List String) : List ContextSnippet → List String
  | [] => [promptCandidate env model options intro]
  | snippet :: rest =>
      promptCandidate env model options intro
        :: promptSpecCandidates env model options (intro ++ [snippetIntroText snippet]) rest

/-- Spec-side description of the prompt-packing loop, second half: walk the
candidates in order; at the first one whose length meets or exceeds the budget
return the candidate before it (the empty string when the very first candidate
already overflows); if every candidate fits return the last. -/
def promptSpecReturn (promptChars : Nat) (cands : List String) : String :=
  match cands.findIdx? (fun c => decide (promptChars ≤ c.length)) with
  | some 0 => ""
  | some (k + 1) => (cands.get? k).getD ""
  | none => cands.getLast?.getD ""

/-- A concrete external environment for closed evaluations: no language
profile, identity path resolution. -/
def sampleEnv : ExternalEnv :=
  { getLanguageConfig := fun _ => none
    asRelativePath := id
    headRaw := id
    tailTrimmed := id
    openingCodeTag := "<CODE>"
    closingCodeTag := "</CODE>" }

/-- A concrete external environment whose language profile resolver returns a
profile with line-comment marker `"# "` for every language. -/
def sharpEnv : ExternalEnv :=
  { getLanguageConfig := fun _ => some { commentStart := "# " }
    asRelativePath := id
    headRaw := id
    tailTrimmed := id
    openingCodeTag := "<CODE>"
    closingCodeTag := "</CODE>" }

/-- Concrete multiline provider options for closed evaluations. -/
def sampleOptions : ProviderOptions :=
  { fileName := "a.ts", languageId := "typescript"
    docContext := { prefixText := "a", suffix := "" }
    n := 1, multiline := true
    dynamicMultilineCompletions := false, hotStreak := false }

/-- Concrete options with the dynamic-multiline experiment enabled. -/
def dynOptions : ProviderOptions :=
  { sampleOptions with dynamicMultilineCompletions := true }

/-- Concrete single-line options (extended-generation mode off). -/
def singleOptions : ProviderOptions :=
  { sampleOptions with multiline := false }

/-! ## Helper lemmas -/

lemma drop_findIdx_eq_dropWhile (l : List Char) :
    (match l.findIdx? (· = '\n') with
      | none => ([] : List Char)
      | some i => l.drop i)
      = l.dropWhile (fun c => !(c = '\n' : Bool)) := by
  induction l with
  | nil => rfl
  | cons c cs ih =>
      by_cases h : c = '\n'
      · subst h
        simp [List.findIdx?_cons, List.dropWhile_cons]
      · have hfi : (c :: cs).findIdx? (· = '\n')
            = (cs.findIdx? (· = '\n')).map (· + 1) := by
          simp [List.findIdx?_cons, h, List.findIdx?_succ]
        rw [hfi, List.dropWhile_cons]
        cases hcs : cs.findIdx? (· = '\n') with
        | none =>
            rw [hcs] at ih
            simp only [Option.map_none'] at *
            simpa [h] using ih
        | some i =>
            rw [hcs] at ih
            simp only [Option.map_some'] at *
            simpa [h, List.drop_succ_cons] using ih

lemma buildRequestParams_timeoutMs (t : AutocompleteTimeouts) (u : Bool)
    (pr : String) (m : Option String) :
    (buildRequestParams t u pr m).timeoutMs
      = if t.singleline.getD 0 ≠ 0 ∧ ¬u then t.singleline.getD 0
        else if t.multiline.getD 0 ≠ 0 ∧ u then t.multiline.getD 0
        else if u then 15000 else 5000 := by
  unfold buildRequestParams
  cases u <;>
    simp_all [MULTI_LINE_COMPLETION_ARGS, SINGLE_LINE_COMPLETION_ARGS] <;>
    split_ifs <;> simp_all

lemma buildRequestParams_timeoutMs_pos (t : AutocompleteTimeouts) (u : Bool)
    (pr : String) (m : Option String) :
    0 < (buildRequestParams t u pr m).timeoutMs := by
  rw [buildRequestParams_timeoutMs]
  split_ifs <;> omega

lemma generateCompletionsOutcome_eq_dispatch (env : ExternalEnv) (p : FireworksProvider)
    (snippets : List ContextSnippet) :
    generateCompletionsOutcome env p snippets
      = GenerateOutcome.dispatch (finalRequestParams env p snippets)
          p.options.dynamicMultilineCompletions p.options.n := by
  unfold generateCompletionsOutcome finalRequestParams
  rw [if_neg (Nat.pos_iff_ne_zero.mp (buildRequestParams_timeoutMs_pos _ _ _ _))]

lemma timeoutMs?_outcome (env : ExternalEnv) (p : FireworksProvider)
    (snippets : List ContextSnippet) :
    (generateCompletionsOutcome env p snippets).timeoutMs?
      = some (if p.options.dynamicMultilineCompletions then 15000
          else (buildRequestParams p.timeouts (useExtendedGeneration p.options)
            (createPrompt env p snippets)
            (resolveRequestModel p.model p.options.multiline)).timeoutMs) := by
  rw [generateCompletionsOutcome_eq_dispatch]
  unfold GenerateOutcome.timeoutMs? finalRequestParams
  by_cases h : p.options.dynamicMultilineCompletions <;>
    simp [h, DYNAMIC_MULTLILINE_COMPLETIONS_ARGS]

lemma maxTokens?_outcome (env : ExternalEnv) (p : FireworksProvider)
    (snippets : List ContextSnippet) :
    (generateCompletionsOutcome env p snippets).maxTokens?
      = some (if p.options.dynamicMultilineCompletions then MAX_RESPONSE_TOKENS
          else if useExtendedGeneration p.options then MAX_RESPONSE_TOKENS else 30) := by
  rw [generateCompletionsOutcome_eq_dispatch]
  unfold GenerateOutcome.maxTokens? finalRequestParams buildRequestParams
  by_cases h : p.options.dynamicMultilineCompletions <;>
    by_cases hu : useExtendedGeneration p.options <;>
      simp [h, hu, DYNAMIC_MULTLILINE_COMPLETIONS_ARGS, MULTI_LINE_COMPLETION_ARGS,
        SINGLE_LINE_COMPLETION_ARGS] <;>
      split_ifs <;> rfl

lemma stops?_outcome (env : ExternalEnv) (p : FireworksProvider)
    (snippets : List ContextSnippet) :
    (generateCompletionsOutcome env p snippets).stops?
      = some (if p.options.dynamicMultilineCompletions then none
          else if useExtendedGeneration p.options then some ["\n\n", "\n\r\n"]
          else some ["\n"]) := by
  rw [generateCompletionsOutcome_eq_dispatch]
  unfold GenerateOutcome.stops? finalRequestParams buildRequestParams
  by_cases h : p.options.dynamicMultilineCompletions <;>
    by_cases hu : useExtendedGeneration p.options <;>
      simp [h, hu, DYNAMIC_MULTLILINE_COMPLETIONS_ARGS, MULTI_LINE_COMPLETION_ARGS,
        SINGLE_LINE_COMPLETION_ARGS] <;>
      split_ifs <;> rfl

lemma modelId?_outcome (env : ExternalEnv) (p : FireworksProvider)
    (snippets : List ContextSnippet) :
    (generateCompletionsOutcome env p snippets).modelId?
      = some (resolveRequestModel p.model p.options.multiline) := by
  rw [generateCompletionsOutcome_eq_dispatch]
  unfold GenerateOutcome.modelId? finalRequestParams buildRequestParams
  by_cases h : p.options.dynamicMultilineCompletions <;> simp [h] <;> split_ifs <;> rfl

lemma createPrompt_timeouts_congr (env : ExternalEnv) (p : FireworksProvider)
    (T : AutocompleteTimeouts) (snippets : List ContextSnippet) :
    createPrompt env { p with timeouts := T } snippets = createPrompt env p snippets := rfl

lemma buildRequestParams_multiline_erase (t : AutocompleteTimeouts) (pr : String)
    (m : Option String) :
    buildRequestParams { t with multiline := none } false pr m
      = buildRequestParams t false pr m := by
  unfold buildRequestParams
  simp

lemma buildRequestParams_singleline_erase (t : AutocompleteTimeouts) (pr : String)
    (m : Option String) :
    buildRequestParams { t with singleline := none } true pr m
      = buildRequestParams t true pr m := by
  unfold buildRequestParams
  simp

/-! ## Claim theorems -/

/-- C9: for every suffix string, the retained suffix is exactly the portion of
the original suffix starting at its first line break (inclusive) — that is,
what remains after dropping the longest newline-free leading segment — and is
empty when the suffix has no line break; in particular `"abc\ndef"` yields
`"\ndef"` and a newline-free suffix yields `""`. -/
theorem getSuffixAfterFirstNewline_spec :
    (∀ s : String, getSuffixAfterFirstNewline s
      = String.mk (s.toList.dropWhile (fun c => !(c = '\n' : Bool))))
    ∧ getSuffixAfterFirstNewline "abc\ndef" = "\ndef"
    ∧ getSuffixAfterFirstNewline "abc" = "" := by
  refine ⟨fun s => ?_, by decide, by decide⟩
  unfold getSuffixAfterFirstNewline
  rw [← drop_findIdx_eq_dropWhile s.toList]
  cases hfi : s.toList.findIdx? (· = '\n') with
  | none => rfl
  | some i => rfl

/-- C5: for every model string, `createProviderConfig` with an unknown
non-empty, non-`"starcoder-hybrid"` model string throws an error naming the
offending string; with `null` or the empty string it resolves the model to
`"starcoder-hybrid"`; a string present in the known-model table resolves to
itself. -/
theorem createProviderConfig_model_resolution :
    (∀ m : String, m ≠ "" → m ≠ "starcoder-hybrid" →
      MODEL_MAP.any (fun p => p.1 == m) = false →
      createProviderConfig (some m) = Except.error ("Unknown model: `" ++ m ++ "`"))
    ∧ (∃ cfg, createProviderConfig none = Except.ok cfg ∧ cfg.model = "starcoder-hybrid")
    ∧ (∃ cfg, createProviderConfig (some "") = Except.ok cfg ∧ cfg.model = "starcoder-hybrid")
    ∧ (∀ m : String, MODEL_MAP.any (fun p => p.1 == m) = true →
      ∃ cfg, createProviderConfig (some m) = Except.ok cfg ∧ cfg.model = m) := by
  refine ⟨fun m h1 h2 h3 => ?_, ⟨_, rfl, rfl⟩, ⟨_, rfl, rfl⟩, fun m hm => ?_⟩
  · simp only [createProviderConfig, if_neg h1, if_neg h2, h3]
    rfl
  · by_cases h1 : m = ""
    · subst h1; exact absurd hm (by decide)
    · by_cases h2 : m = "starcoder-hybrid"
      · subst h2; exact absurd hm (by decide)
      · simp only [createProviderConfig, if_neg h1, if_neg h2, hm]
        exact ⟨_, rfl, rfl⟩

/-- Witness for C5: the unknown model string `"gpt-4"` produces the error
naming it, and the known model string `"starcoder-7b"` resolves to itself. -/
theorem createProviderConfig_model_resolution_witness :
    createProviderConfig (some "gpt-4") = Except.error "Unknown model: `gpt-4`"
    ∧ ∃ cfg, createProviderConfig (some "starcoder-7b") = Except.ok cfg
        ∧ cfg.model = "starcoder-7b" :=
  ⟨createProviderConfig_model_resolution.1 "gpt-4" (by decide) (by decide) (by decide),
   createProviderConfig_model_resolution.2.2.2 "starcoder-7b" (by decide)⟩

/-- C10: every backend request constructed by `generateCompletions` has
temperature `0.2` and `topK = 0`, for every model, mode and flag combination
(the dynamic-multiline and timeout overrides never change these two sampling
parameters). -/
theorem request_temperature_topK :
    ∀ (env : ExternalEnv) (p : FireworksProvider) (snippets : List ContextSnippet),
      (generateCompletionsOutcome env p snippets).temperature? = some 0.2
      ∧ (generateCompletionsOutcome env p snippets).topK? = some 0 := by
  intro env p snippets
  rw [generateCompletionsOutcome_eq_dispatch]
  unfold GenerateOutcome.temperature? GenerateOutcome.topK? finalRequestParams
    buildRequestParams
  by_cases h : p.options.dynamicMultilineCompletions <;> simp [h] <;> split_ifs <;>
    exact ⟨rfl, rfl⟩

/-- C4 (bug evidence): the source checks `requestParams.timeoutMs === 0` to
short-circuit to an empty result, but the resolved timeout is never zero — the
presets are `5000`/`15000` and a configured override of `0` is filtered out by
the JS truthiness guard — so `generateCompletions` always dispatches; in
particular, with a configured multiline timeout of `0` in multiline mode, the
request is dispatched with the preset timeout `15000` instead of
short-circuiting as the spec describes. -/
theorem zero_timeout_short_circuit_unreachable :
    (∀ (timeouts : AutocompleteTimeouts) (useExt : Bool) (prompt : String)
      (model : Option String), 0 < (buildRequestParams timeouts useExt prompt model).timeoutMs)
    ∧ (∀ (env : ExternalEnv) (p : FireworksProvider) (snippets : List ContextSnippet),
      (generateCompletionsOutcome env p snippets).isDispatch = true)
    ∧ (generateCompletionsOutcome sampleEnv
        (mkFireworksProvider sampleOptions "starcoder-16b" 2048
          { multiline := some 0, singleline := none }) []).timeoutMs? = some 15000 := by
  refine ⟨buildRequestParams_timeoutMs_pos, fun env p snippets => ?_, by decide⟩
  rw [generateCompletionsOutcome_eq_dispatch]
  rfl

/-- Counterexample to C6 as stated: (a) with the dynamic-multiline flag on
(extended-generation mode active) and a configured multiline timeout of
`20000`, the dispatched request's `timeoutMs` is `15000`, not the configured
value — the dynamic-multiline `Object.assign` runs after the override and
resets the timeout; (b) with a configured multiline timeout of `0` in
multiline mode, the dispatched `timeoutMs` is the preset `15000`, not `0` —
the JS truthiness guard ignores a zero override. -/
theorem timeout_overrides_counterexample :
    (generateCompletionsOutcome sampleEnv
        (mkFireworksProvider dynOptions "starcoder-16b" 2048
          { multiline := some 20000, singleline := none }) []).timeoutMs? = some 15000
    ∧ ((generateCompletionsOutcome sampleEnv
        (mkFireworksProvider dynOptions "starcoder-16b" 2048
          { multiline := some 20000, singleline := none }) []).timeoutMs?
        == some 20000) = false
    ∧ useExtendedGeneration dynOptions = true
    ∧ (generateCompletionsOutcome sampleEnv
        (mkFireworksProvider sampleOptions "starcoder-16b" 2048
          { multiline := some 0, singleline := none }) []).timeoutMs? = some 15000
    ∧ ((generateCompletionsOutcome sampleEnv
        (mkFireworksProvider sampleOptions "starcoder-16b" 2048
          { multiline := some 0, singleline := none }) []).timeoutMs? == some 0) = false
    ∧ useExtendedGeneration sampleOptions = true := by
  exact ⟨by decide, by decide, by decide, by decide, by decide, by decide⟩

/-- C6 (amended): a configured **nonzero** multiline timeout makes the
dispatched `timeoutMs` equal that value whenever extended-generation mode is
active **and the dynamic-multiline flag is off** (when that flag is on, the
dynamic-multiline preset resets the timeout to `15000`); a configured
**nonzero** singleline timeout does so whenever extended-generation mode is
not active; each override has no effect on the outcome in the other mode. -/
theorem timeout_overrides_amended :
    ∀ (env : ExternalEnv) (p : FireworksProvider) (snippets : List ContextSnippet) (v : Nat),
      (p.timeouts.multiline = some v → v ≠ 0 → useExtendedGeneration p.options = true →
        p.options.dynamicMultilineCompletions = false →
        (generateCompletionsOutcome env p snippets).timeoutMs? = some v)
      ∧ (p.timeouts.singleline = some v → v ≠ 0 → useExtendedGeneration p.options = false →
        (generateCompletionsOutcome env p snippets).timeoutMs? = some v)
      ∧ (useExtendedGeneration p.options = false →
        generateCompletionsOutcome env
          { p with timeouts := { p.timeouts with multiline := none } } snippets
          = generateCompletionsOutcome env p snippets)
      ∧ (useExtendedGeneration p.options = true →
        generateCompletionsOutcome env
          { p with timeouts := { p.timeouts with singleline := none } } snippets
          = generateCompletionsOutcome env p snippets) := by
  intro env p snippets v
  refine ⟨fun hm hv hu hd => ?_, fun hs hv hu => ?_, fun hu => ?_, fun hu => ?_⟩
  · rw [timeoutMs?_outcome, hd, if_neg (by simp), buildRequestParams_timeoutMs, hu, hm]
    have hns : ¬(p.timeouts.singleline.getD 0 ≠ 0 ∧ ¬(true : Bool)) := by simp
    rw [if_neg hns, if_pos (by simpa using hv)]
    rfl
  · rw [timeoutMs?_outcome]
    have hd : p.options.dynamicMultilineCompletions = false := by
      revert hu; unfold useExtendedGeneration
      cases p.options.dynamicMultilineCompletions <;> simp
    rw [hd, if_neg (by simp), buildRequestParams_timeoutMs, hu, hs]
    rw [if_pos (by simpa using hv)]
    rfl
  · unfold generateCompletionsOutcome
    dsimp only
    rw [hu, createPrompt_timeouts_congr, buildRequestParams_multiline_erase]
  · unfold generateCompletionsOutcome
    dsimp only
    rw [hu, createPrompt_timeouts_congr, buildRequestParams_singleline_erase]

/-- Witness for C6 (amended): with multiline mode on, dynamic off and a
configured multiline timeout of `7`, the dispatched timeout is `7`; with
single-line mode and a configured singleline timeout of `9`, it is `9`. -/
theorem timeout_overrides_amended_witness :
    (generateCompletionsOutcome sampleEnv
      (mkFireworksProvider sampleOptions "starcoder-16b" 2048
        { multiline := some 7, singleline := none }) []).timeoutMs? = some 7
    ∧ (generateCompletionsOutcome sampleEnv
      (mkFireworksProvider singleOptions "starcoder-16b" 2048
        { multiline := none, singleline := some 9 }) []).timeoutMs? = some 9 :=
  ⟨(timeout_overrides_amended sampleEnv
      (mkFireworksProvider sampleOptions "starcoder-16b" 2048
        { multiline := some 7, singleline := none }) [] 7).1
      rfl (by decide) rfl rfl,
   (timeout_overrides_amended sampleEnv
      (mkFireworksProvider singleOptions "starcoder-16b" 2048
        { multiline := none, singleline := some 9 }) [] 9).2.1
      rfl (by decide) rfl⟩

/-- C8: for model `starcoder-hybrid`, `generateCompletions` resolves the
effective backend model to the `starcoder-16b` mapping when `multiline` is
true and to the `starcoder-7b` mapping otherwise; and when extended-generation
mode is active with the dynamic-multiline flag off (and no timeout override
configured), the dispatched request uses the multi-line preset: `timeoutMs`
15000, `maxTokensToSample` 256, stop sequences `["\n\n", "\n\r\n"]`. -/
theorem starcoder_hybrid_resolution :
    ∀ (env : ExternalEnv) (p : FireworksProvider) (snippets : List ContextSnippet),
      p.model = "starcoder-hybrid" →
      ((generateCompletionsOutcome env p snippets).modelId?
        = some (some (if p.options.multiline then "fireworks/starcoder-16b"
            else "fireworks/starcoder-7b")))
      ∧ (useExtendedGeneration p.options = true →
          p.options.dynamicMultilineCompletions = false →
          p.timeouts.multiline = none →
          (generateCompletionsOutcome env p snippets).timeoutMs? = some 15000
          ∧ (generateCompletionsOutcome env p snippets).maxTokens? = some 256
          ∧ (generateCompletionsOutcome env p snippets).stops?
              = some (some ["\n\n", "\n\r\n"])) := by
  intro env p snippets hmodel
  constructor
  · rw [modelId?_outcome, hmodel]
    unfold resolveRequestModel
    rw [if_pos rfl]
    cases p.options.multiline <;> decide
  · intro hu hd hm
    refine ⟨?_, ?_, ?_⟩
    · rw [timeoutMs?_outcome, hd, if_neg (by simp), buildRequestParams_timeoutMs, hu, hm]
      simp
    · rw [maxTokens?_outcome, hd, hu]
      simp [MAX_RESPONSE_TOKENS]
    · rw [stops?_outcome, hd, hu]
      simp

/-- Witness for C8: the hybrid model with multiline on and no overrides
resolves to the 16b backend model and the multi-line preset. -/
theorem starcoder_hybrid_resolution_witness :
    ((generateCompletionsOutcome sampleEnv
      (mkFireworksProvider sampleOptions "starcoder-hybrid" 2048
        { multiline := none, singleline := none }) []).modelId?
      = some (some "fireworks/starcoder-16b"))
    ∧ (generateCompletionsOutcome sampleEnv
      (mkFireworksProvider sampleOptions "starcoder-hybrid" 2048
        { multiline := none, singleline := none }) []).timeoutMs? = some 15000
    ∧ (generateCompletionsOutcome sampleEnv
      (mkFireworksProvider sampleOptions "starcoder-hybrid" 2048
        { multiline := none, singleline := none }) []).maxTokens? = some 256
    ∧ (generateCompletionsOutcome sampleEnv
      (mkFireworksProvider sampleOptions "starcoder-hybrid" 2048
        { multiline := none, singleline := none }) []).stops?
        = some (some ["\n\n", "\n\r\n"]) := by
  have h := starcoder_hybrid_resolution sampleEnv
    (mkFireworksProvider sampleOptions "starcoder-hybrid" 2048
      { multiline := none, singleline := none }) [] rfl
  have h2 := h.2 rfl rfl rfl
  exact ⟨h.1, h2.1, h2.2.1, h2.2.2⟩

end Fireworks

namespace Fireworks

lemma onCompletionReadyLoop_stable {α : Type} (n : Nat) (rest : List α) :
    ∀ (acc : List α) (emitted : List (List α)), n ≤ acc.length →
      (onCompletionReadyLoop n acc emitted rest).2 = emitted := by
  induction rest with
  | nil => intro acc emitted h; rfl
  | cons c cs ih =>
      intro acc emitted h
      unfold onCompletionReadyLoop
      dsimp only
      have hne : ¬((acc ++ [c]).length = n) := by
        simp only [List.length_append, List.length_cons, List.length_nil]
        omega
      rw [if_neg hne]
      exact ih _ _ (by simp only [List.length_append, List.length_cons, List.length_nil]; omega)

lemma onCompletionReadyLoop_len {α : Type} (n : Nat) (rest : List α) :
    ∀ (acc : List α) (emitted : List (List α)), acc.length < n →
      ((onCompletionReadyLoop n acc emitted rest).2).length ≤ emitted.length + 1 := by
  induction rest with
  | nil => intro acc emitted h; exact Nat.le_succ _
  | cons c cs ih =>
      intro acc emitted h
      unfold onCompletionReadyLoop
      dsimp only
      by_cases hn : (acc ++ [c]).length = n
      · rw [if_pos hn]
        rw [onCompletionReadyLoop_stable n cs _ _ (le_of_eq hn.symm)]
        simp
      · rw [if_neg hn]
        refine ih _ _ ?_
        have hle : (acc ++ [c]).length ≤ n := by
          simp only [List.length_append, List.length_cons, List.length_nil]
          omega
        omega

lemma onCompletionReadyLoop_mem {α : Type} (n : Nat) (rest : List α) :
    ∀ (acc : List α) (emitted : List (List α)), (∀ l ∈ emitted, l.length = n) →
      ∀ l ∈ (onCompletionReadyLoop n acc emitted rest).2, l.length = n := by
  induction rest with
  | nil => intro acc emitted h; exact h
  | cons c cs ih =>
      intro acc emitted h
      unfold onCompletionReadyLoop
      dsimp only
      by_cases hn : (acc ++ [c]).length = n
      · rw [if_pos hn]
        refine ih _ _ ?_
        intro l hl
        rcases List.mem_append.mp hl with hl | hl
        · exact h l hl
        · rw [List.mem_singleton.mp hl]
          exact hn
      · rw [if_neg hn]
        exact ih _ _ h

/-- C3: for every invocation of `generateCompletions` with sample count `n`,
the caller's `onCompletionReady` is invoked at most once, and every list it is
invoked with is either empty or has exactly `n` items — a partial set of fewer
than `n` items is never delivered. -/
theorem onCompletionReady_all_or_nothing :
    ∀ (α : Type) (env : ExternalEnv) (p : FireworksProvider)
      (snippets : List ContextSnippet) (incoming : List α),
      (completionCallbackInvocations env p snippets incoming).length ≤ 1
      ∧ (completionCallbackInvocations env p snippets incoming).all
          (fun l => l.isEmpty || l.length == p.options.n) = true := by
  intro α env p snippets incoming
  unfold completionCallbackInvocations
  rw [generateCompletionsOutcome_eq_dispatch]
  dsimp only
  unfold onCompletionReadyEmissions
  constructor
  · rcases Nat.eq_zero_or_pos p.options.n with h0 | hpos
    · rw [h0, onCompletionReadyLoop_stable 0 incoming [] [] (Nat.zero_le _)]
      simp
    · have := onCompletionReadyLoop_len p.options.n incoming [] [] (by simpa using hpos)
      simpa using this
  · rw [List.all_eq_true]
    intro l hl
    have hlen := onCompletionReadyLoop_mem p.options.n incoming [] []
      (by intro l h; cases h) l hl
    simp [hlen]

lemma createPromptLoop_length_le (env : ExternalEnv) (model : String)
    (options : ProviderOptions) (B : Nat) :
    ∀ (snips : List ContextSnippet) (intro : List String) (prompt : String),
      prompt.length ≤ B → (createPromptLoop env model options B intro prompt snips).length ≤ B := by
  intro snips
  induction snips with
  | nil =>
      intro intro prompt h
      unfold createPromptLoop
      dsimp only
      by_cases hc : B ≤ (promptCandidate env model options intro).length
      · rw [if_pos hc]; exact h
      · rw [if_neg hc]; omega
  | cons s rest ih =>
      intro intro prompt h
      unfold createPromptLoop
      dsimp only
      by_cases hc : B ≤ (promptCandidate env model options intro).length
      · rw [if_pos hc]; exact h
      · rw [if_neg hc]; exact ih _ _ (by omega)

/-- C1: for every list of context snippets and every document prefix/suffix
(and every model, language profile and external environment), the prompt
returned by `createPrompt` has length that never exceeds the `promptChars`
character budget, where `promptChars = tokensToChars (maxContextTokens -
MAX_RESPONSE_TOKENS)` as set by the provider constructor. -/
theorem createPrompt_length_le_promptChars :
    ∀ (env : ExternalEnv) (options : ProviderOptions) (model : String)
      (maxContextTokens : Nat) (timeouts : AutocompleteTimeouts)
      (snippets : List ContextSnippet),
      (createPrompt env (mkFireworksProvider options model maxContextTokens timeouts)
          snippets).length
        ≤ tokensToChars (maxContextTokens - MAX_RESPONSE_TOKENS) := by
  intro env options model maxContextTokens timeouts snippets
  unfold createPrompt mkFireworksProvider
  dsimp only
  exact createPromptLoop_length_le env model options _ snippets _ "" (Nat.zero_le _)

lemma promptSpecCandidates_ne_nil (env : ExternalEnv) (model : String)
    (options : ProviderOptions) (intro : List String) (snips : List ContextSnippet) :
    promptSpecCandidates env model options intro snips ≠ [] := by
  cases snips <;> simp [promptSpecCandidates]

lemma createPromptLoop_eq_spec (env : ExternalEnv) (model : String)
    (options : ProviderOptions) (B : Nat) :
    ∀ (snips : List ContextSnippet) (intro : List String) (prompt : String),
      createPromptLoop env model options B intro prompt snips
        = (match (promptSpecCandidates env model options intro snips).findIdx?
              (fun c => decide (B ≤ c.length)) with
           | some 0 => prompt
           | some (k + 1) =>
               ((promptSpecCandidates env model options intro snips).get? k).getD prompt
           | none => (promptSpecCandidates env model options intro snips).getLast?.getD prompt) := by
  intro snips
  induction snips with
  | nil =>
      intro intro prompt
      unfold createPromptLoop promptSpecCandidates
      dsimp only
      by_cases hc : B ≤ (promptCandidate env model options intro).length
      · rw [if_pos hc]
        simp [List.findIdx?_cons, hc]
      · rw [if_neg hc]
        simp [List.findIdx?_cons, hc]
  | cons s rest ih =>
      intro intro prompt
      unfold createPromptLoop promptSpecCandidates
      dsimp only
      by_cases hc : B ≤ (promptCandidate env model options intro).length
      · rw [if_pos hc]
        simp [List.findIdx?_cons, hc]
      · rw [if_neg hc, ih]
        have hfi : (promptCandidate env model options intro
              :: promptSpecCandidates env model options
                  (intro ++ [snippetIntroText s]) rest).findIdx?
              (fun c => decide (B ≤ c.length))
            = ((promptSpecCandidates env model options
                  (intro ++ [snippetIntroText s]) rest).findIdx?
                (fun c => decide (B ≤ c.length))).map (· + 1) := by
          simp [List.findIdx?_cons, hc, List.findIdx?_succ]
        rw [hfi]
        cases hcs : (promptSpecCandidates env model options
            (intro ++ [snippetIntroText s]) rest).findIdx?
            (fun c => decide (B ≤ c.length)) with
        | none =>
            simp only [Option.map_none']
            rw [List.getLast?_cons]
            cases hlast : (promptSpecCandidates env model options
                (intro ++ [snippetIntroText s]) rest).getLast? with
            | none =>
                exact absurd (List.getLast?_eq_none_iff.mp hlast)
                  (promptSpecCandidates_ne_nil env model options _ rest)
            | some x => rfl
        | some k =>
            cases k with
            | zero => simp
            | succ k =>
                simp only [Option.map_some']
                have hk : k + 1 <
                    (promptSpecCandidates env model options
                      (intro ++ [snippetIntroText s]) rest).length :=
                  (List.findIdx?_eq_some_iff_findIdx_eq.mp hcs).1
                cases hget : (promptSpecCandidates env model options
                    (intro ++ [snippetIntroText s]) rest).get? k with
                | none =>
                    have := List.get?_eq_none.mp hget
                    omega
                | some x =>
                    simp only [List.get?_cons_succ, hget, Option.getD_some]

/-- Counterexample to C2 as stated: with `maxContextTokens = 256` the
character budget `promptChars` is `0`, so even the zero-snippet candidate
meets or exceeds it, yet `createPrompt` returns the empty initial prompt
`""` — not the zero-snippet candidate the claim says is returned. -/
theorem createPrompt_zero_snippet_counterexample :
    createPrompt sampleEnv (mkFireworksProvider sampleOptions "starcoder-16b" 256
        { multiline := none, singleline := none }) [] = ""
    ∧ promptCandidate sampleEnv "starcoder-16b" sampleOptions []
        = "<filename>a.ts<fim_prefix>// \na<fim_suffix><fim_middle>"
    ∧ (mkFireworksProvider sampleOptions "starcoder-16b" 256
          { multiline := none, singleline := none }).promptChars
        ≤ (promptCandidate sampleEnv "starcoder-16b" sampleOptions []).length
    ∧ (("" : String) == promptCandidate sampleEnv "starcoder-16b" sampleOptions []) = false :=
  ⟨by decide, by decide, by decide, by decide⟩

/-- C2 (amended): `createPrompt` walks the candidate prompts (one per prefix
of the snippet list) in order and returns the candidate before the first one
whose length meets or exceeds the budget — which is the empty string, the
initial value of the accumulator, when already the zero-snippet candidate
does not fit — and returns the last candidate when every candidate fits. -/
theorem createPrompt_eq_promptSpecReturn :
    ∀ (env : ExternalEnv) (p : FireworksProvider) (snippets : List ContextSnippet),
      createPrompt env p snippets
        = promptSpecReturn p.promptChars
            (promptSpecCandidates env p.model p.options
              (if isStarCoderFamily p.model then []
               else ["Path: " ++ p.options.fileName]) snippets) := by
  intro env p snippets
  unfold createPrompt promptSpecReturn
  rw [createPromptLoop_eq_spec]

/-- C7 (bug evidence): when a language profile exists, each intro line is
rendered as the profile's line-comment marker followed by the line; when no
profile exists, the source maps the line to the bare string `"// "`,
discarding the line's content instead of prefixing it — so the `Path:` intro
line vanishes from the assembled prompt. -/
theorem intro_line_comment_rendering :
    renderIntroString (some { commentStart := "# " }) ["Path: a.ts"] = "# Path: a.ts\n"
    ∧ renderIntroString none ["Path: a.ts"] = "// \n"
    ∧ (("// \n" : String) == "// Path: a.ts\n") = false
    ∧ createPrompt sampleEnv (mkFireworksProvider sampleOptions "llama-code-7b" 2048
          { multiline := none, singleline := none }) []
        = "<PRE> // \na <SUF> <MID>" :=
  ⟨by decide, by decide, by decide, by decide⟩

end Fireworks
